import Mathlib

/-!
# Verification of the lesson quiz-section validator

This development embeds the quiz-section validation logic of
`checks/test_lesson.py` and proves properties of it.

The file in the repository parses each lesson with a Markdown parser and
works on the resulting JSON object tree.  We embed that tree as the
inductive type `Obj` below (a node has a `type`, an optional `literal`
string, optional `list_data` and a list of children), and translate each
Python function over it.  Conventions used by the embedding:

* a JSON object without a `"children"` key is embedded with `children = []`
  (the functions of the source treat the two identically wherever they are
  defined: `filter_object_recursively` explicitly skips objects without the
  key, which is the same as mapping and filtering an empty list);
* a JSON object without a `"literal"` key is embedded with `literal = ""`
  (the source reads `x["literal"]` only behind the `is_text` filter, and a
  `text` node of the Markdown dump always carries its non-empty literal);
* `"list_data"` is kept optional because the source tests for the presence
  of that key (`"list_data" in v.keys()`);
* Python `assert False, msg` failures are embedded as `Except.error msg`
  (the file-path part of each message is dropped: the embedding validates a
  single already-read document);
* the few places where the source could raise an uncaught `KeyError` or
  `IndexError` (`get_bullet_char`) are embedded as `Except.error` with a
  message naming the exception.

The raw-text revision of the validator (delimiter scanning, sanitizing and
heading segmentation over the lesson text itself) is not part of the
checked-in sources; the definitions marked `Modelled from the spec:` embed
that missing code from its specification.
-/

set_option linter.unusedVariables false

namespace QuizCheck

/-- The literal `QUESTION_SECTION_INDICATOR = "?---?"` of the source. -/
def QUESTION_SECTION_INDICATOR : String := "?---?"

/-- The literal `CODE_SNIPPET_INDICATOR = "```"` of the source. -/
def CODE_SNIPPET_INDICATOR : String := "```"

/-- The `list_data` dictionary of a Markdown dump node: the source reads its
`"type"` (`"bullet"` or `"ordered"`) and `"bullet_char"` entries. -/
structure ListData where
  type : String
  bullet_char : String
deriving DecidableEq, Inhabited

/-- A node of the JSON dump of the Markdown AST, as consumed by
`test_lesson.py`: a `type` tag, a `literal` (empty when the key is absent),
an optional `list_data` dictionary and the list of children (empty when the
key is absent). -/
inductive Obj : Type where
  | mk (type : String) (literal : String) (list_data : Option ListData)
       (children : List Obj)

/-- The `"type"` entry of a node. -/
def Obj.type : Obj → String
  | .mk t _ _ _ => t

/-- The `"literal"` entry of a node (`""` when absent). -/
def Obj.literal : Obj → String
  | .mk _ l _ _ => l

/-- The `"list_data"` entry of a node, when present. -/
def Obj.list_data : Obj → Option ListData
  | .mk _ _ d _ => d

/-- The `"children"` entry of a node (`[]` when absent). -/
def Obj.children : Obj → List Obj
  | .mk _ _ _ c => c

instance : Inhabited Obj := ⟨.mk "" "" none []⟩

/-- `is_text` of the source: `x["type"] == "text"`. -/
def is_text (x : Obj) : Bool := x.type == "text"

/-! ## Answer classifier (`parse_single_answer_options`,
`parse_multi_answer_options`) -/

/-- `re.match(r"^- \[ ]", x)`: the line starts with `- [ ]`. -/
def matches_single_unchecked (s : String) : Bool :=
  List.isPrefixOf "- [ ]".data s.data

/-- `re.match(r"^- \[[xX]]", x)`: the line starts with `- [x]` or `- [X]`. -/
def matches_single_checked (s : String) : Bool :=
  List.isPrefixOf "- [x]".data s.data || List.isPrefixOf "- [X]".data s.data

/-- `re.match(r"^\* \[ ]", x)`: the line starts with `* [ ]`. -/
def matches_multi_unchecked (s : String) : Bool :=
  List.isPrefixOf "* [ ]".data s.data

/-- `re.match(r"^\* \[[xX]]", x)`: the line starts with `* [x]` or `* [X]`. -/
def matches_multi_checked (s : String) : Bool :=
  List.isPrefixOf "* [x]".data s.data || List.isPrefixOf "* [X]".data s.data

/-- The `AnswerOptions` class of the source: it stores only the three
counts of the option lists it is built from. -/
structure AnswerOptions where
  checked_count : Nat
  unchecked_count : Nat
  all_count : Nat
deriving DecidableEq

/-- `parse_single_answer_options` of the source: filter the option texts by
the two single-answer patterns and tally them (`all_count` is
`unchecked_count + checked_count`, as in the class constructor). -/
def parse_single_answer_options (answer_options_texts : List String) : AnswerOptions :=
  let unchecked_options := answer_options_texts.filter matches_single_unchecked
  let checked_options := answer_options_texts.filter matches_single_checked
  { checked_count := checked_options.length
    unchecked_count := unchecked_options.length
    all_count := unchecked_options.length + checked_options.length }

/-- `parse_multi_answer_options` of the source. -/
def parse_multi_answer_options (answer_options_texts : List String) : AnswerOptions :=
  let unchecked_options := answer_options_texts.filter matches_multi_unchecked
  let checked_options := answer_options_texts.filter matches_multi_checked
  { checked_count := checked_options.length
    unchecked_count := unchecked_options.length
    all_count := unchecked_options.length + checked_options.length }

/-! ## Quiz rule engine (`validate_question_answers`, lines 112-127)

The source derives `answer_options_texts` from the question contents and
then applies the five ordered rules.  This function embeds the rule part;
it takes the derived `answer_options_texts` as input.  The Python
`if` / `if` / `if`-`elif` / `if` sequence of asserts is an else-if chain,
because each failing assert aborts the function. -/

def validate_question_answers (answer_options_texts : List String) : Except String Unit :=
  let single_answer_options := parse_single_answer_options answer_options_texts
  let multi_answer_options := parse_multi_answer_options answer_options_texts
  if single_answer_options.all_count > 0 && multi_answer_options.all_count > 0 then
    .error "Found both single- and multi- answer options in the question"
  else if single_answer_options.all_count == 0 && multi_answer_options.all_count == 0 then
    .error "Found no answer options in the question"
  else if single_answer_options.checked_count > 1 then
    .error "Multiple answers checked in the single answer question"
  else if single_answer_options.all_count > 0 && single_answer_options.checked_count == 0 then
    .error "No answer checked in the single answer question"
  else if multi_answer_options.all_count > 0 && multi_answer_options.checked_count == 0 then
    .error "No answer checked in the multi answer question found"
  else
    .ok ()

/-- The well-formed single-answer question of the spec, in the words of the
spec: exactly one checked `-` option, zero or more unchecked `-` options,
and zero `*` options. -/
def WellFormedSingleAnswer (answer_options_texts : List String) : Prop :=
  (answer_options_texts.filter matches_single_checked).length = 1 ∧
  (answer_options_texts.filter matches_multi_unchecked).length = 0 ∧
  (answer_options_texts.filter matches_multi_checked).length = 0

/-- The well-formed multi-answer question of the spec, in the words of the
spec: one or more checked `*` options, zero or more unchecked `*` options,
and zero `-` options. -/
def WellFormedMultiAnswer (answer_options_texts : List String) : Prop :=
  1 ≤ (answer_options_texts.filter matches_multi_checked).length ∧
  (answer_options_texts.filter matches_single_unchecked).length = 0 ∧
  (answer_options_texts.filter matches_single_checked).length = 0

/-! ## Marker scanning (`derive_question_section_indicator_index`) -/

/-- `is_qsi` of the source: `x["literal"] == QUESTION_SECTION_INDICATOR`. -/
def is_qsi (x : Obj) : Bool := x.literal == QUESTION_SECTION_INDICATOR

/-- The `partial_sum` computed for one top-level object:
`sum(map(lambda x: 1 if is_qsi(x) else 0, filter(is_text, json_objects[i]["children"])))`,
i.e. the number of text children whose literal is the marker. -/
def qsi_count (o : Obj) : Nat :=
  ((o.children.filter is_text).filter is_qsi).length

/-- Python truthiness of the `qsi_index` variable (`None` or an `int`):
`None` and `0` are falsy. -/
def truthy : Option Nat → Bool
  | none => false
  | some n => !(n == 0)

/-- The loop body of `derive_question_section_indicator_index`, with the
running block index `i` and the current `qsi_index` made explicit. -/
def derive_qsi_aux : List Obj → Nat → Option Nat → Except String (Option Nat)
  | [], _, qsi_index => .ok qsi_index
  | o :: rest, i, qsi_index =>
    let marker_count := qsi_count o
    if marker_count > 1 || (marker_count == 1 && truthy qsi_index) then
      .error "Multiple question section indicators found"
    else if marker_count == 1 then
      derive_qsi_aux rest (i + 1) (some i)
    else
      derive_qsi_aux rest (i + 1) qsi_index

/-- `derive_question_section_indicator_index` of the source. -/
def derive_question_section_indicator_index (json_objects : List Obj) :
    Except String (Option Nat) :=
  derive_qsi_aux json_objects 0 none

/-! ## Code-block and empty-paragraph removal

`filter_object_recursively` of the source mutates its argument: it
reassigns `content_object["children"]` bottom-up and then returns the very
same (now updated) object.  The embedding below computes the value that
the object holds after the call, which is also the returned value. -/

mutual

/-- `filter_object_recursively` of the source: recursively process the
children, keep those satisfying `pred`, and produce the updated object.
An object without a `"children"` key is returned unchanged by the source,
which coincides with this definition at `children = []`. -/
def filter_object_recursively (content_object : Obj) (pred : Obj → Bool) : Obj :=
  match content_object with
  | .mk t l d cs => .mk t l d (List.filter pred (filter_children cs pred))

/-- The `list(map(lambda x: filter_object_recursively(x, pred), ...))` part
of `filter_object_recursively`. -/
def filter_children (cs : List Obj) (pred : Obj → Bool) : List Obj :=
  match cs with
  | [] => []
  | c :: rest => filter_object_recursively c pred :: filter_children rest pred

end

/-- `remove_code_blocks` of the source: drop every node whose type is
`"code_block"`. -/
def remove_code_blocks (content_object : Obj) : Obj :=
  filter_object_recursively content_object (fun v => !(v.type == "code_block"))

/-- `is_not_empty_node` of the source:
`o["type"] != "paragraph" or (o["type"] == "paragraph" and o["children"])`
(Python truthiness of the children list: non-empty). -/
def is_not_empty_node (o : Obj) : Bool :=
  !(o.type == "paragraph") || (o.type == "paragraph" && !(o.children.isEmpty))

/-- `remove_empty_paragraphs` of the source: recursively drop empty
paragraphs inside every object, then drop the top-level objects that have
become empty paragraphs themselves. -/
def remove_empty_paragraphs (content_objects : List Obj) : List Obj :=
  (content_objects.map (fun o => filter_object_recursively o is_not_empty_node)).filter
    is_not_empty_node

/-! ## Question indicator validation (`validate_question_indicators`) -/

/-- `validate_question_indicators` of the source: for every object of type
`"heading"`, fail if any of its children is itself a heading. -/
def validate_question_indicators : List Obj → Except String Unit
  | [] => .ok ()
  | content_object :: rest =>
    if content_object.type == "heading" then
      if content_object.children.any (fun x => x.type == "heading") then
        .error "Invalid question indication (multiple number sign) in lesson file"
      else
        validate_question_indicators rest
    else
      validate_question_indicators rest

/-! ## Heading segmentation (`derive_question_answer_options_groups`) -/

/-- `is_item_node` of the source: some child carries a `"list_data"` key
with `list_data["type"] == "bullet"`. -/
def is_item_node (o : Obj) : Bool :=
  o.children.any (fun v =>
    match v.list_data with
    | some d => d.type == "bullet"
    | none => false)

/-- `is_heading_node` of the source: some child has type `"heading"`. -/
def is_heading_node (o : Obj) : Bool :=
  o.children.any (fun v => v.type == "heading")

/-- `[i for i, v in enumerate(objects) if p(v)]`, with the enumeration
starting at `start`. -/
def indices_where (p : Obj → Bool) : List Obj → Nat → List Nat
  | [], _ => []
  | o :: rest, i =>
    if p o then i :: indices_where p rest (i + 1) else indices_where p rest (i + 1)

/-- The `heading_indices` list of the source. -/
def heading_indices (content_objects : List Obj) : List Nat :=
  indices_where is_heading_node content_objects 0

/-- The `for i in range(headings_len)` loop of
`derive_question_answer_options_groups`, recursing on the remaining
heading indices instead of the loop counter (`his[i]` is the head, and
`his[i + 1]` — used when `i + 1 < headings_len` — is the head of the
tail).  `beg = his[i] + 1`; `end` is the next heading index or the length
of the list; the slice `content_objects[beg:end]` is `drop beg` followed
by `take (end - beg)`; and the `[i + beg for i, v in enumerate(slice) if
is_valid_item_node(v)]` comprehension is `indices_where` on the slice with
the enumeration started at `beg`. -/
def groups_aux (content_objects : List Obj) : List Nat → Except String (List (List Nat))
  | [] => .ok []
  | h1 :: his_rest =>
    let beg := h1 + 1
    let en := match his_rest with
      | h2 :: _ => h2
      | [] => content_objects.length
    let item_indices :=
      indices_where is_item_node ((content_objects.drop beg).take (en - beg)) beg
    if item_indices.isEmpty then
      .error "Found a question without answer options in lesson file"
    else do
      let rest ← groups_aux content_objects his_rest
      .ok (item_indices :: rest)

/-- `derive_question_answer_options_groups` of the source. -/
def derive_question_answer_options_groups (content_objects : List Obj) :
    Except String (List (List Nat)) :=
  groups_aux content_objects (heading_indices content_objects)

/-! ## Answer text derivation (`validate_question_answers`, lines 107-111) -/

/-- `get_bullet_char` of the source:
`[x["list_data"]["bullet_char"] for x in children if x["type"] in ("item", "list")][0]`.
The source raises an uncaught `KeyError` when a filtered node has no
`list_data`, and an uncaught `IndexError` when no node qualifies; both are
embedded as errors. -/
def get_bullet_char (xs : List Obj) : Except String String :=
  let filtered := xs.filter (fun x => x.type == "item" || x.type == "list")
  if filtered.any (fun x => x.list_data.isNone) then
    .error "KeyError: list_data"
  else
    match filtered.map (fun x => (x.list_data.getD default).bullet_char) with
    | [] => .error "IndexError: list index out of range"
    | c :: _ => .ok c

/-- `write_text` of the source, already joined by the `" ".join` of the
caller: the bullet char of the children, a space, and the concatenation of
the literals of the text children. -/
def write_text (x : Obj) : Except String String := do
  let b ← get_bullet_char x.children
  .ok (b ++ " " ++ String.join ((x.children.filter is_text).map (·.literal)))

/-- `validate_question_answers` of the source, taken from its object-level
entry point: derive `answer_options_texts` from the question contents
(lines 107-111) and run the five rules on them (lines 112-127). -/
def validate_question_answers_objs (question_contents : List Obj) : Except String Unit := do
  let answer_options_texts ← question_contents.mapM write_text
  validate_question_answers answer_options_texts

/-! ## Section validation and the per-lesson driver -/

/-- The `for group in question_answer_options_groups` loop of
`validate_question_section_content`. -/
def validate_groups (content_objects : List Obj) : List (List Nat) → Except String Unit
  | [] => .ok ()
  | g :: rest => do
    validate_question_answers_objs (g.map (fun i => content_objects.getD i default))
    validate_groups content_objects rest

/-- `validate_question_section_content` of the source. -/
def validate_question_section_content (content_objects : List Obj) : Except String Unit := do
  let cs := content_objects.map remove_code_blocks
  let cs := remove_empty_paragraphs cs
  validate_question_indicators cs
  let question_answer_options_groups ← derive_question_answer_options_groups cs
  validate_groups cs question_answer_options_groups

/-- The per-lesson body of `test_lesson` (lines 19-27), for one parsed
document: find the question-section indicator index; when it is truthy
(`if qsi_index:`), validate the objects strictly after it. -/
def test_lesson_one (json_objects : List Obj) : Except String Unit := do
  let qsi_index ← derive_question_section_indicator_index json_objects
  if truthy qsi_index then
    validate_question_section_content (json_objects.drop (qsi_index.getD 0 + 1))
  else
    .ok ()

/-! ## Node predicates used to characterise when nothing is pruned -/

mutual

/-- Every strict descendant of the object satisfies `pred` (the object
itself is never filtered by `filter_object_recursively`, so it is not
required to satisfy `pred`). -/
def all_nodes (pred : Obj → Bool) (o : Obj) : Bool :=
  match o with
  | .mk _ _ _ cs => all_nodes_list pred cs

/-- Every member of the list, and every descendant of a member, satisfies
`pred`. -/
def all_nodes_list (pred : Obj → Bool) : List Obj → Bool
  | [] => true
  | c :: rest => pred c && all_nodes pred c && all_nodes_list pred rest

end

/-! ## Raw-text pipeline, modelled from the spec

The repository history also contains a raw-text revision of the validator
(delimiter scanning and regex segmentation over the lesson text itself);
that revision is not among the checked-in sources, so the following
definitions embed it from its specification (sections 4.1-4.3 of the
spec).  Text is represented as `List Char`. -/

/-- The backtick character, `Char.ofNat 96`. -/
def fence_char : Char := Char.ofNat 96

/-- The code-fence marker ` ``` ` as a character list. -/
def fence_marker : List Char := CODE_SNIPPET_INDICATOR.data

/-- Prepend a character to the first chunk of a split result. -/
def consHead (c : Char) : List (List Char) → List (List Char)
  | [] => [[c]]
  | p :: ps => (c :: p) :: ps

/-- Modelled from the spec: the occurrences of the code-fence marker
split the text into chunks (the spans strictly between consecutive
occurrences, plus the span before the first and after the last one);
occurrences are found left to right without overlap. -/
def split_on_fence : List Char → List (List Char)
  | c1 :: c2 :: c3 :: rest =>
    if c1 = fence_char && c2 = fence_char && c3 = fence_char then
      [] :: split_on_fence rest
    else
      consHead c1 (split_on_fence (c2 :: c3 :: rest))
  | c :: rest => consHead c (split_on_fence rest)
  | [] => [[]]

/-- Modelled from the spec: the number of (non-overlapping, left-to-right)
occurrences of the code-fence marker in the text. -/
def count_fences : List Char → Nat
  | c1 :: c2 :: c3 :: rest =>
    if c1 = fence_char && c2 = fence_char && c3 = fence_char then
      count_fences rest + 1
    else
      count_fences (c2 :: c3 :: rest)
  | _ => 0

/-- Modelled from the spec: keep the chunks at even positions (the text
before the first fence, between a closing and the next opening fence, and
after the last closing fence) and drop the odd ones (the fenced spans),
concatenating the retained chunks in their original order. -/
def join_even_chunks : List (List Char) → List Char
  | [] => []
  | [p] => p
  | p :: _ :: rest => p ++ join_even_chunks rest

/-- Modelled from the spec (4.1, the part missing from the checked-in
sources): code-block removal over raw quiz-section text.  Fails with the
unmatched-fence diagnostic when the number of fence-marker occurrences is
odd; otherwise drops every fenced span and returns the retained text in
order. -/
def spec_remove_code_blocks (s : List Char) : Except String (List Char) :=
  if count_fences s % 2 == 1 then
    .error "Unmatched code snippet indicator found"
  else
    .ok (join_even_chunks (split_on_fence s))

/-- Split a character list into lines at newline characters. -/
def split_lines_chars : List Char → List (List Char)
  | [] => [[]]
  | c :: rest =>
    if c = '\n' then [] :: split_lines_chars rest
    else consHead c (split_lines_chars rest)

/-- Drop leading and trailing whitespace of a line. -/
def trim_chars (l : List Char) : List Char :=
  ((l.dropWhile Char.isWhitespace).reverse.dropWhile Char.isWhitespace).reverse

/-- Modelled from the spec (4.2, the part missing from the checked-in
sources): the sanitizer.  Split the de-fenced text into lines, drop every
line that is empty or all-whitespace, trim the remaining lines, and rejoin
them with single newlines, preserving their order. -/
def sanitize (s : List Char) : List Char :=
  List.intercalate ['\n']
    (((split_lines_chars s).filter (fun l => !(l.all Char.isWhitespace))).map trim_chars)

/-- Modelled from the spec: the text contains a run of two or more
consecutive `#` characters, i.e. two adjacent `#` characters. -/
def has_hash_run : List Char → Bool
  | c1 :: c2 :: rest => (c1 = '#' && c2 = '#') || has_hash_run (c2 :: rest)
  | _ => false

/-- Modelled from the spec: split the sanitized text on every occurrence
of the two-character pattern "newline followed by `#`". -/
def split_on_question_marks : List Char → List (List Char)
  | c1 :: c2 :: rest =>
    if c1 = '\n' && c2 = '#' then [] :: split_on_question_marks rest
    else consHead c1 (split_on_question_marks (c2 :: rest))
  | c :: rest => consHead c (split_on_question_marks rest)
  | [] => [[]]

/-- Modelled from the spec (4.3, the part missing from the checked-in
sources): the heading segmenter.  Fail with the invalid-question
diagnostic when the sanitized text contains a run of two or more
consecutive `#`; otherwise split on "newline followed by a single `#`"
and discard the chunk before the first split point (the preamble).  The
start of the text counts as a line start (a newline is prepended before
splitting), so a `#` at the very beginning of the sanitized section also
opens a question, as in scenarios A-D of the spec. -/
def spec_segment (s : List Char) : Except String (List (List Char)) :=
  if has_hash_run s then
    .error "Invalid question indication (multiple number sign)"
  else
    .ok ((split_on_question_marks ('\n' :: s)).drop 1)

/-- Modelled from the spec (4.4/4.5): classify each line of the question
block and run the five ordered rules; the classifier patterns and the rule
engine are shared with the object-based revision
(`validate_question_answers`). -/
def spec_validate_question_block (block : List Char) : Except String Unit :=
  validate_question_answers ((split_lines_chars block).map (fun l => String.mk l))

/-- Run the classifier and rule engine on every question block, stopping
at the first failure. -/
def spec_validate_blocks : List (List Char) → Except String Unit
  | [] => .ok ()
  | b :: rest => do
    spec_validate_question_block b
    spec_validate_blocks rest

/-- Modelled from the spec: validation of the quiz-section text (the text
strictly after the marker): code-block removal, sanitization, heading
segmentation, then classification and rules per question block. -/
def spec_validate_quiz_section (quiz : List Char) : Except String Unit := do
  let defenced ← spec_remove_code_blocks quiz
  let blocks ← spec_segment (sanitize defenced)
  spec_validate_blocks blocks

/-- Modelled from the spec (4.1): the text strictly after the first
occurrence of the quiz-section marker `?---?`, when the marker occurs. -/
def find_quiz_text : List Char → Option (List Char)
  | '?' :: '-' :: '-' :: '-' :: '?' :: rest => some rest
  | _ :: rest => find_quiz_text rest
  | [] => none

/-- Modelled from the spec: per-lesson validation over raw text.  Without
the marker the lesson passes; with it, the text after the first marker is
validated as the quiz section. -/
def spec_validate_lesson (text : List Char) : Except String Unit :=
  match find_quiz_text text with
  | none => .ok ()
  | some quiz => spec_validate_quiz_section quiz

/-- A quiz-section text assembled from retained spans and fenced spans:
`first`, then for each pair an opening fence, the dropped span, a closing
fence, and the next retained span. -/
def build_fenced (first : List Char) : List (List Char × List Char) → List Char
  | [] => first
  | (d, p) :: rest => first ++ fence_marker ++ d ++ fence_marker ++ build_fenced p rest

/-- The concatenation, in order, of the retained spans of an assembled
quiz-section text. -/
def retained_concat (first : List Char) : List (List Char × List Char) → List Char
  | [] => first
  | (_, p) :: rest => first ++ retained_concat p rest

/-- The full chunk list of an assembled text: the retained and dropped
spans, alternating. -/
def all_chunks : List (List Char × List Char) → List (List Char)
  | [] => []
  | (d, p) :: rest => d :: p :: all_chunks rest

/-! ## Concrete documents used by witnesses and counterexamples -/

/-- A paragraph block holding exactly the quiz-section marker. -/
def pq : Obj := .mk "paragraph" "" none [.mk "text" "?---?" none []]

/-- A paragraph block holding the text `x`. -/
def px : Obj := .mk "paragraph" "" none [.mk "text" "x" none []]

/-- A paragraph block holding the text `hello`. -/
def ph : Obj := .mk "paragraph" "" none [.mk "text" "hello" none []]

/-- A block containing a heading child (a question boundary for the
segmenter). -/
def hwrap : Obj := .mk "section" "" none [.mk "heading" "" none [.mk "text" "Q1" none []]]

/-- A document whose only two marker occurrences sit in blocks 0 and 1. -/
def two_marker_doc : List Obj := [pq, pq]

/-- A document with the marker in block 1 and no question heading after
it. -/
def c8_doc : List Obj := [px, pq, ph]

/-- An object with a single `code_block` child. -/
def c9_obj : Obj := .mk "paragraph" "" none [.mk "code_block" "x = 1" none []]

/-- A document with markers in blocks 0 and 2, followed by a question
heading with no answer options. -/
def c10_doc : List Obj := [pq, px, pq, hwrap]

end QuizCheck

namespace QuizCheck

/-- C1: the quiz rule engine accepts a question block exactly when the
block is a well-formed single-answer question (exactly one checked `-`
option, zero or more unchecked `-` options, zero `*` options) or a
well-formed multi-answer question (one or more checked `*` options, zero
or more unchecked `*` options, zero `-` options). -/
theorem validate_question_answers_ok_iff (answer_options_texts : List String) :
    validate_question_answers answer_options_texts = .ok () ↔
      (WellFormedSingleAnswer answer_options_texts ∨
        WellFormedMultiAnswer answer_options_texts) := by
  unfold validate_question_answers WellFormedSingleAnswer WellFormedMultiAnswer
  unfold parse_single_answer_options parse_multi_answer_options
  simp only [Nat.lt_irrefl, gt_iff_lt, Bool.and_eq_true, decide_eq_true_eq,
    Nat.lt_iff_add_one_le, beq_iff_eq]
  split_ifs with h1 h2 h3 h4 h5 <;>
    simp only [reduceCtorEq, false_iff, Except.ok.injEq, true_iff, not_or] <;>
    omega

/-- C2: when a question block has at least one single-kind (`-`) option
and at least one multi-kind (`*`) option, the rule engine reports the
rule-1 diagnostic (both kinds present) and no later diagnostic: rule 1 is
evaluated first and failing it aborts the evaluation. -/
theorem validate_question_answers_mixed (answer_options_texts : List String)
    (h1 : 0 < (parse_single_answer_options answer_options_texts).all_count)
    (h2 : 0 < (parse_multi_answer_options answer_options_texts).all_count) :
    validate_question_answers answer_options_texts =
      .error "Found both single- and multi- answer options in the question" := by
  simp [validate_question_answers, h1, h2]

/-- Witness for C2 at a question block holding one checked `-` option and
one unchecked `*` option. -/
theorem validate_question_answers_mixed_witness :
    0 < (parse_single_answer_options ["- [x] yes", "* [ ] no"]).all_count ∧
    0 < (parse_multi_answer_options ["- [x] yes", "* [ ] no"]).all_count ∧
    validate_question_answers ["- [x] yes", "* [ ] no"] =
      .error "Found both single- and multi- answer options in the question" :=
  ⟨by decide, by decide,
    validate_question_answers_mixed ["- [x] yes", "* [ ] no"] (by decide) (by decide)⟩

/-! ## Lemmas about the marker scan -/

/-- Scanning blocks with no marker children leaves the accumulator
unchanged and raises nothing. -/
theorem derive_qsi_aux_no_marker (l : List Obj) :
    ∀ i acc, (∀ o ∈ l, qsi_count o = 0) → derive_qsi_aux l i acc = .ok acc := by
  induction l with
  | nil => intro i acc h; rfl
  | cons o rest ih =>
    intro i acc h
    have ho : qsi_count o = 0 := h o (List.mem_cons_self o rest)
    have hrest : ∀ o ∈ rest, qsi_count o = 0 := fun p hp => h p (List.mem_cons_of_mem o hp)
    simp only [derive_qsi_aux, ho]
    exact ih (i + 1) acc hrest

/-- C5: a parsed lesson document in which no top-level block has a text
child carrying the marker literal `?---?` passes validation: the scan
returns no index and the orchestrator never enters the quiz-section
pipeline. -/
theorem test_lesson_no_marker (json_objects : List Obj)
    (h : ∀ o ∈ json_objects, qsi_count o = 0) :
    derive_question_section_indicator_index json_objects = .ok none ∧
      test_lesson_one json_objects = .ok () := by
  have hd : derive_question_section_indicator_index json_objects = .ok none :=
    derive_qsi_aux_no_marker json_objects 0 none h
  refine ⟨hd, ?_⟩
  unfold test_lesson_one
  rw [hd]
  rfl

/-- Witness for C5 at a one-paragraph document with no marker. -/
theorem test_lesson_no_marker_witness :
    (∀ o ∈ [ph], qsi_count o = 0) ∧
    (derive_question_section_indicator_index [ph] = .ok none ∧
      test_lesson_one [ph] = .ok ()) :=
  ⟨by decide, test_lesson_no_marker [ph] (by decide)⟩

/-- C6 (the code violates the claim): a document whose only two marker
occurrences sit in blocks 0 and 1 is not flagged as having multiple
indicators — when the first marker is found in block 0, `qsi_index` is the
falsy `0`, so `partial_sum == 1 and qsi_index` does not fire at the second
marker; the scan returns the second index and the whole validation
succeeds, although the document has two `?---?` markers. -/
theorem test_lesson_two_markers_passes :
    qsi_count pq = 1 ∧
    derive_question_section_indicator_index two_marker_doc = .ok (some 1) ∧
    test_lesson_one two_marker_doc = .ok () :=
  ⟨rfl, rfl, rfl⟩

/-! ## Lemmas about segmentation over documents without headings -/

/-- An index comprehension over objects all failing the predicate is
empty. -/
theorem indices_where_nil (p : Obj → Bool) (l : List Obj) :
    ∀ n, (∀ o ∈ l, p o = false) → indices_where p l n = [] := by
  induction l with
  | nil => intro n h; rfl
  | cons o rest ih =>
    intro n h
    have ho : p o = false := h o (List.mem_cons_self o rest)
    simp only [indices_where, ho, Bool.false_eq_true, if_false]
    exact ih (n + 1) (fun x hx => h x (List.mem_cons_of_mem o hx))

/-- When no object has a heading child, the indicator validation cannot
fire: the inner check of `validate_question_indicators` is exactly
`is_heading_node`. -/
theorem validate_question_indicators_ok (cs : List Obj)
    (h : ∀ o ∈ cs, is_heading_node o = false) :
    validate_question_indicators cs = .ok () := by
  induction cs with
  | nil => rfl
  | cons o rest ih =>
    have ho : o.children.any (fun x => x.type == "heading") = false := by
      have := h o (List.mem_cons_self o rest)
      simpa [is_heading_node] using this
    have ih2 := ih (fun x hx => h x (List.mem_cons_of_mem o hx))
    simp only [validate_question_indicators, ho, Bool.false_eq_true, if_false, ih2, ite_self]

/-- When no object has a heading child, segmentation yields the empty
group list and raises nothing. -/
theorem groups_of_no_headings (cs : List Obj)
    (h : ∀ o ∈ cs, is_heading_node o = false) :
    derive_question_answer_options_groups cs = .ok [] := by
  unfold derive_question_answer_options_groups heading_indices
  rw [indices_where_nil is_heading_node cs 0 h]
  rfl

/-- A quiz section whose sanitized content has no heading child anywhere
is validated successfully: empty classification, no rule ever runs. -/
theorem validate_question_section_content_no_headings (content_objects : List Obj)
    (h : ∀ o ∈ remove_empty_paragraphs (content_objects.map remove_code_blocks),
      is_heading_node o = false) :
    validate_question_section_content content_objects = .ok () := by
  have hvi := validate_question_indicators_ok _ h
  have hgr := groups_of_no_headings _ h
  simp only [validate_question_section_content]
  rw [hvi, hgr]
  rfl

/-- C8 counterexample: a document with the marker in block 1 and no
question heading after it.  The segmenter raises nothing and classifies
zero questions, but nothing downstream catches the empty quiz section
either: the whole validation returns success, so the condition claimed to
be "caught downstream by the rule engine" is never reported. -/
theorem quiz_without_questions_not_caught :
    derive_question_section_indicator_index c8_doc = .ok (some 1) ∧
    heading_indices (remove_empty_paragraphs ((c8_doc.drop 2).map remove_code_blocks)) = [] ∧
    test_lesson_one c8_doc = .ok () :=
  ⟨rfl, rfl, rfl⟩

/-- C8 amended: when the marker is present (at a truthy index) and the
sanitized quiz-section content contains no heading child, the heading
segmenter raises no error and yields an empty classification, the rule
engine runs zero times, and validation of the lesson succeeds — the
"quiz section present but without questions" condition is not reported. -/
theorem marker_no_headings_passes (json_objects : List Obj) (i : Nat)
    (hder : derive_question_section_indicator_index json_objects = .ok (some i))
    (hi : i ≠ 0)
    (hnh : ∀ o ∈ remove_empty_paragraphs ((json_objects.drop (i + 1)).map remove_code_blocks),
      is_heading_node o = false) :
    derive_question_answer_options_groups
        (remove_empty_paragraphs ((json_objects.drop (i + 1)).map remove_code_blocks)) =
      .ok [] ∧
    test_lesson_one json_objects = .ok () := by
  refine ⟨groups_of_no_headings _ hnh, ?_⟩
  unfold test_lesson_one
  rw [hder]
  have htr : truthy (some i) = true := by simp [truthy, hi]
  show (if truthy (some i) = true then
      validate_question_section_content (json_objects.drop ((some i).getD 0 + 1))
    else .ok ()) = .ok ()
  rw [htr, if_pos rfl]
  exact validate_question_section_content_no_headings _ hnh

/-- Witness for C8 (amended) at the concrete document `c8_doc`. -/
theorem marker_no_headings_passes_witness :
    derive_question_section_indicator_index c8_doc = .ok (some 1) ∧
    (derive_question_answer_options_groups
        (remove_empty_paragraphs ((c8_doc.drop 2).map remove_code_blocks)) = .ok [] ∧
      test_lesson_one c8_doc = .ok ()) :=
  ⟨rfl, marker_no_headings_passes c8_doc 1 rfl (by decide) (by decide)⟩

/-! ## Mutation of the filtered objects (C9) -/

/-- C9 counterexample: `filter_object_recursively` reassigns
`content_object["children"]` in place and returns the very same object, so
the value the caller's object holds after `remove_code_blocks` is the
returned value.  For an object with a `code_block` child that value
differs from the original: the input is not left unchanged. -/
theorem remove_code_blocks_changes_input :
    remove_code_blocks c9_obj ≠ c9_obj := by
  intro h
  have h2 : (remove_code_blocks c9_obj).children = c9_obj.children := congrArg Obj.children h
  have h3 : ([] : List Obj) = [Obj.mk "code_block" "x = 1" none []] := h2
  exact List.noConfusion h3

mutual

/-- When every strict descendant of the object satisfies the predicate,
the recursive filter prunes nothing and the object keeps its value. -/
theorem filter_object_id (pred : Obj → Bool) (o : Obj) (h : all_nodes pred o = true) :
    filter_object_recursively o pred = o :=
  match o with
  | .mk t l d cs => by
    have hc := filter_children_id pred cs h
    unfold filter_object_recursively
    rw [hc.1, hc.2]

/-- List version of `filter_object_id`: the mapped filter and the
subsequent predicate filter both leave the list unchanged. -/
theorem filter_children_id (pred : Obj → Bool) (cs : List Obj)
    (h : all_nodes_list pred cs = true) :
    filter_children cs pred = cs ∧ List.filter pred cs = cs :=
  match cs with
  | [] => ⟨rfl, rfl⟩
  | c :: rest => by
    have hparts : ((pred c && all_nodes pred c) && all_nodes_list pred rest) = true := h
    simp only [Bool.and_eq_true] at hparts
    have h1 : pred c = true := hparts.1.1
    have h2 := filter_object_id pred c hparts.1.2
    have h3 := filter_children_id pred rest hparts.2
    constructor
    · simp only [filter_children, h2, h3.1]
    · rw [List.filter_cons_of_pos h1, h3.2]

end

/-- C9 amended: code-block removal and empty-paragraph removal are
deterministic functions of their input (their embedding here is exactly a
function of the argument), but they operate by in-place mutation, so the
caller's value is only preserved when nothing is pruned: when no strict
descendant is a `code_block`, `remove_code_blocks` returns (and stores)
the unchanged value, and when no object is or contains a childless
paragraph, `remove_empty_paragraphs` returns the unchanged list. -/
theorem sanitization_preserves_unpruned (o : Obj) (cs : List Obj)
    (h1 : all_nodes (fun v => !(v.type == "code_block")) o = true)
    (h2 : ∀ c ∈ cs, is_not_empty_node c = true ∧ all_nodes is_not_empty_node c = true) :
    remove_code_blocks o = o ∧ remove_empty_paragraphs cs = cs := by
  constructor
  · exact filter_object_id _ o h1
  · unfold remove_empty_paragraphs
    have hmap : ∀ l : List Obj, (∀ c ∈ l, all_nodes is_not_empty_node c = true) →
        l.map (fun c => filter_object_recursively c is_not_empty_node) = l := by
      intro l
      induction l with
      | nil => intro _; rfl
      | cons c rest ih =>
        intro hl
        simp only [List.map_cons]
        rw [filter_object_id _ c (hl c (List.mem_cons_self c rest)),
          ih (fun x hx => hl x (List.mem_cons_of_mem c hx))]
    rw [hmap cs (fun c hc => (h2 c hc).2), List.filter_eq_self.mpr (fun c hc => (h2 c hc).1)]

/-- Witness for C9 (amended) at a paragraph with a text child and no
code block. -/
theorem sanitization_preserves_unpruned_witness :
    all_nodes (fun v => !(v.type == "code_block")) ph = true ∧
    (∀ c ∈ [ph], is_not_empty_node c = true ∧ all_nodes is_not_empty_node c = true) ∧
    (remove_code_blocks ph = ph ∧ remove_empty_paragraphs [ph] = [ph]) :=
  ⟨by decide, by decide, sanitization_preserves_unpruned ph [ph] (by decide) (by decide)⟩

/-! ## The falsy first-block marker (C10) -/

/-- Scanning a marker-free prefix only advances the loop index. -/
theorem derive_qsi_aux_skip (pre : List Obj) :
    ∀ (l : List Obj) (i : Nat) (acc : Option Nat), (∀ o ∈ pre, qsi_count o = 0) →
      derive_qsi_aux (pre ++ l) i acc = derive_qsi_aux l (i + pre.length) acc := by
  induction pre with
  | nil => intro l i acc h; simp
  | cons o rest ih =>
    intro l i acc h
    have ho : qsi_count o = 0 := h o (List.mem_cons_self o rest)
    have hstep : derive_qsi_aux ((o :: rest) ++ l) i acc = derive_qsi_aux (rest ++ l) (i + 1) acc := by
      simp [derive_qsi_aux, ho]
    rw [hstep, ih l (i + 1) acc (fun x hx => h x (List.mem_cons_of_mem o hx))]
    have harith : i + 1 + rest.length = i + (o :: rest).length := by
      simp only [List.length_cons]
      omega
    rw [harith]

/-- Dropping the scanned prefix of the document reaches the objects after
the marker block. -/
theorem drop_past_marker (x o : Obj) (post : List Obj) :
    ∀ pre : List Obj, (x :: (pre ++ o :: post)).drop (pre.length + 1 + 1) = post := by
  intro pre
  rw [List.drop_succ_cons]
  induction pre with
  | nil => rfl
  | cons y rest ih => simp [List.drop_succ_cons]

/-- C10 amended: a marker occurrence in block 0 makes `qsi_index` the
falsy `0`.  When no later block holds a marker, the lesson is treated as
having no quiz section and no question validation runs; a marker in a
later block is then not flagged as a duplicate — instead it becomes the
quiz-section start, and question validation runs on the content after that
later block. -/
theorem first_block_marker_ignored (js0 : Obj) (rest : List Obj) (h0 : qsi_count js0 = 1) :
    ((∀ o ∈ rest, qsi_count o = 0) →
      derive_question_section_indicator_index (js0 :: rest) = .ok (some 0) ∧
      test_lesson_one (js0 :: rest) = .ok ()) ∧
    (∀ pre o post, rest = pre ++ o :: post →
      (∀ p ∈ pre, qsi_count p = 0) → qsi_count o = 1 → (∀ p ∈ post, qsi_count p = 0) →
      derive_question_section_indicator_index (js0 :: rest) = .ok (some (pre.length + 1)) ∧
      test_lesson_one (js0 :: rest) = validate_question_section_content post) := by
  have hstep : derive_question_section_indicator_index (js0 :: rest) =
      derive_qsi_aux rest 1 (some 0) := by
    simp [derive_question_section_indicator_index, derive_qsi_aux, h0, truthy]
  constructor
  · intro hz
    have hd : derive_question_section_indicator_index (js0 :: rest) = .ok (some 0) := by
      rw [hstep, derive_qsi_aux_no_marker rest 1 (some 0) hz]
    refine ⟨hd, ?_⟩
    unfold test_lesson_one
    rw [hd]
    rfl
  · intro pre o post hsplit hpre ho hpost
    have hd : derive_question_section_indicator_index (js0 :: rest) =
        .ok (some (pre.length + 1)) := by
      rw [hstep, hsplit, derive_qsi_aux_skip pre (o :: post) 1 (some 0) hpre]
      have hostep : derive_qsi_aux (o :: post) (1 + pre.length) (some 0) =
          derive_qsi_aux post (1 + pre.length + 1) (some (1 + pre.length)) := by
        simp [derive_qsi_aux, ho, truthy]
      rw [hostep, derive_qsi_aux_no_marker post (1 + pre.length + 1) (some (1 + pre.length)) hpost]
      congr 2
      omega
    refine ⟨hd, ?_⟩
    unfold test_lesson_one
    rw [hd]
    have htr : truthy (some (pre.length + 1)) = true := by simp [truthy]
    show (if truthy (some (pre.length + 1)) = true then
        validate_question_section_content ((js0 :: rest).drop ((some (pre.length + 1)).getD 0 + 1))
      else .ok ()) = validate_question_section_content post
    rw [htr, if_pos rfl, hsplit]
    exact congrArg validate_question_section_content (drop_past_marker js0 o post pre)

/-- C10 counterexample: with markers in blocks 0 and 2 and a question
heading without options after the second marker, the document is not
flagged as a duplicate, but question validation does run — on the content
after the second marker — and fails; the claim that no question validation
runs for such a lesson is false. -/
theorem first_block_marker_then_validation_runs :
    derive_question_section_indicator_index c10_doc = .ok (some 2) ∧
    test_lesson_one c10_doc = .error "Found a question without answer options in lesson file" :=
  ⟨rfl, rfl⟩

/-- Witness for C10 (amended), applying the theorem once to a document
with the marker only in block 0 and once to a document with markers in
blocks 0 and 2. -/
theorem first_block_marker_ignored_witness :
    (derive_question_section_indicator_index [pq, px] = .ok (some 0) ∧
      test_lesson_one [pq, px] = .ok ()) ∧
    (derive_question_section_indicator_index [pq, px, pq, ph] = .ok (some 2) ∧
      test_lesson_one [pq, px, pq, ph] = validate_question_section_content [ph]) := by
  constructor
  · exact (first_block_marker_ignored pq [px] (by decide)).1 (by decide)
  · exact (first_block_marker_ignored pq [px, pq, ph] (by decide)).2 [px] pq [ph] rfl
      (by decide) (by decide) (by decide)

/-! ## Theorems about the raw-text pipeline (modelled from the spec) -/

/-- C4: a quiz-section text with an odd number of code-fence marker
occurrences fails validation with the unmatched-fence diagnostic,
whatever the content between the fences. -/
theorem odd_fences_unmatched (quiz : List Char) (h : count_fences quiz % 2 = 1) :
    spec_validate_quiz_section quiz = .error "Unmatched code snippet indicator found" := by
  have hrm : spec_remove_code_blocks quiz = .error "Unmatched code snippet indicator found" := by
    unfold spec_remove_code_blocks
    simp [h]
  unfold spec_validate_quiz_section
  rw [hrm]
  rfl

/-- Witness for C4 at a quiz-section text with three fence markers. -/
theorem odd_fences_unmatched_witness :
    count_fences ("a ``` b ``` c ``` d".data) % 2 = 1 ∧
    spec_validate_quiz_section ("a ``` b ``` c ``` d".data) =
      .error "Unmatched code snippet indicator found" :=
  ⟨by decide, odd_fences_unmatched ("a ``` b ``` c ``` d".data) (by decide)⟩

/-- C3: when code-fence removal succeeds and the sanitized quiz-section
text contains a run of two or more consecutive `#` characters,
segmentation fails with the invalid-question-indication diagnostic. -/
theorem hash_run_segmentation_fails (quiz defenced : List Char)
    (h1 : spec_remove_code_blocks quiz = .ok defenced)
    (h2 : has_hash_run (sanitize defenced) = true) :
    spec_validate_quiz_section quiz =
      .error "Invalid question indication (multiple number sign)" := by
  unfold spec_validate_quiz_section
  rw [h1]
  show (do
      let blocks ← spec_segment (sanitize defenced)
      spec_validate_blocks blocks) =
    Except.error "Invalid question indication (multiple number sign)"
  unfold spec_segment
  simp only [h2, if_true, if_pos]
  rfl

/-- Witness for C3 at the lesson text of scenario F of the spec. -/
theorem hash_run_segmentation_fails_witness :
    find_quiz_text ("?---?\n## Q1\n- [x] a\n".data) = some ("\n## Q1\n- [x] a\n".data) ∧
    spec_remove_code_blocks ("\n## Q1\n- [x] a\n".data) = .ok ("\n## Q1\n- [x] a\n".data) ∧
    has_hash_run (sanitize ("\n## Q1\n- [x] a\n".data)) = true ∧
    spec_validate_lesson ("?---?\n## Q1\n- [x] a\n".data) =
      .error "Invalid question indication (multiple number sign)" := by
  refine ⟨by decide, rfl, by decide, ?_⟩
  show spec_validate_quiz_section ("\n## Q1\n- [x] a\n".data) =
    Except.error "Invalid question indication (multiple number sign)"
  exact hash_run_segmentation_fails ("\n## Q1\n- [x] a\n".data) ("\n## Q1\n- [x] a\n".data)
    rfl (by decide)

/-! ## Fence removal is order-preserving and content-opaque (C7) -/

/-- Prepend a span to the first chunk of a split result. -/
def consAll (l : List Char) : List (List Char) → List (List Char)
  | [] => [l]
  | p :: ps => (l ++ p) :: ps

/-- `consHead` never produces the empty chunk list. -/
theorem consHead_ne_nil (c : Char) (l : List (List Char)) : consHead c l ≠ [] := by
  cases l <;> simp [consHead]

/-- The fence splitter never produces the empty chunk list. -/
theorem split_on_fence_ne_nil : ∀ s : List Char, split_on_fence s ≠ []
  | [] => by simp [split_on_fence]
  | [c] => by simp [split_on_fence, consHead_ne_nil]
  | [c1, c2] => by simp [split_on_fence, consHead_ne_nil]
  | c1 :: c2 :: c3 :: rest => by
    simp only [split_on_fence]
    split
    · simp
    · exact consHead_ne_nil _ _

/-- Splitting after a non-fence character prepends it to the first
chunk. -/
theorem split_on_fence_cons (c : Char) (h : c ≠ fence_char) :
    ∀ xs, split_on_fence (c :: xs) = consHead c (split_on_fence xs)
  | [] => rfl
  | [x] => rfl
  | x :: y :: rest => by
    simp [split_on_fence, h]

/-- Counting after a non-fence character skips it. -/
theorem count_fences_cons (c : Char) (h : c ≠ fence_char) :
    ∀ xs, count_fences (c :: xs) = count_fences xs
  | [] => rfl
  | [x] => rfl
  | x :: y :: rest => by
    simp [count_fences, h]

/-- Splitting distributes over a fence-free prefix. -/
theorem split_on_fence_append (l : List Char) (hl : ∀ c ∈ l, c ≠ fence_char) (xs : List Char) :
    split_on_fence (l ++ xs) = consAll l (split_on_fence xs) := by
  induction l with
  | nil =>
    obtain ⟨p, ps, hs⟩ := List.exists_cons_of_ne_nil (split_on_fence_ne_nil xs)
    rw [List.nil_append, hs]
    simp [consAll]
  | cons c l2 ih =>
    rw [List.cons_append,
      split_on_fence_cons c (hl c (List.mem_cons_self c l2)) (l2 ++ xs),
      ih (fun x hx => hl x (List.mem_cons_of_mem c hx))]
    cases split_on_fence xs <;> simp [consHead, consAll]

/-- Counting ignores a fence-free prefix. -/
theorem count_fences_append (l : List Char) (hl : ∀ c ∈ l, c ≠ fence_char) (xs : List Char) :
    count_fences (l ++ xs) = count_fences xs := by
  induction l with
  | nil => rfl
  | cons c l2 ih =>
    rw [List.cons_append,
      count_fences_cons c (hl c (List.mem_cons_self c l2)) (l2 ++ xs),
      ih (fun x hx => hl x (List.mem_cons_of_mem c hx))]

/-- The fence marker is three backtick characters. -/
theorem fence_marker_eq : fence_marker = [fence_char, fence_char, fence_char] := by
  decide

/-- Splitting at a fence marker starts a new chunk. -/
theorem split_on_fence_fence (xs : List Char) :
    split_on_fence (fence_marker ++ xs) = [] :: split_on_fence xs := by
  rw [fence_marker_eq]
  show split_on_fence (fence_char :: fence_char :: fence_char :: xs) = [] :: split_on_fence xs
  simp [split_on_fence]

/-- A fence marker adds one to the occurrence count. -/
theorem count_fences_fence (xs : List Char) :
    count_fences (fence_marker ++ xs) = count_fences xs + 1 := by
  rw [fence_marker_eq]
  show count_fences (fence_char :: fence_char :: fence_char :: xs) = count_fences xs + 1
  simp [count_fences]

/-- Splitting an assembled text recovers exactly its spans, in order. -/
theorem split_on_fence_build (pairs : List (List Char × List Char)) :
    ∀ first : List Char, (∀ c ∈ first, c ≠ fence_char) →
      (∀ pr ∈ pairs, (∀ c ∈ pr.1, c ≠ fence_char) ∧ (∀ c ∈ pr.2, c ≠ fence_char)) →
      split_on_fence (build_fenced first pairs) = first :: all_chunks pairs := by
  induction pairs with
  | nil =>
    intro first hf _
    obtain ⟨p, ps, hs⟩ := List.exists_cons_of_ne_nil (split_on_fence_ne_nil ([] : List Char))
    have : split_on_fence (first ++ []) = consAll first (split_on_fence []) :=
      split_on_fence_append first hf []
    rw [List.append_nil] at this
    rw [build_fenced, this]
    simp [consAll, split_on_fence, all_chunks]
  | cons pr rest ih =>
    intro first hf hp
    obtain ⟨d, p⟩ := pr
    have hd : ∀ c ∈ d, c ≠ fence_char := (hp (d, p) (List.mem_cons_self _ _)).1
    have hpp : ∀ c ∈ p, c ≠ fence_char := (hp (d, p) (List.mem_cons_self _ _)).2
    have hrest : ∀ pr2 ∈ rest, (∀ c ∈ pr2.1, c ≠ fence_char) ∧ (∀ c ∈ pr2.2, c ≠ fence_char) :=
      fun pr2 h2 => hp pr2 (List.mem_cons_of_mem _ h2)
    rw [build_fenced]
    simp only [List.append_assoc]
    rw [split_on_fence_append first hf, split_on_fence_fence,
      split_on_fence_append d hd, split_on_fence_fence, ih p hpp hrest]
    simp [consAll, all_chunks]

/-- An assembled text has exactly twice as many fence occurrences as it
has fenced spans. -/
theorem count_fences_build (pairs : List (List Char × List Char)) :
    ∀ first : List Char, (∀ c ∈ first, c ≠ fence_char) →
      (∀ pr ∈ pairs, (∀ c ∈ pr.1, c ≠ fence_char) ∧ (∀ c ∈ pr.2, c ≠ fence_char)) →
      count_fences (build_fenced first pairs) = 2 * pairs.length := by
  induction pairs with
  | nil =>
    intro first hf _
    have := count_fences_append first hf []
    rw [List.append_nil] at this
    rw [build_fenced, this]
    rfl
  | cons pr rest ih =>
    intro first hf hp
    obtain ⟨d, p⟩ := pr
    have hd : ∀ c ∈ d, c ≠ fence_char := (hp (d, p) (List.mem_cons_self _ _)).1
    have hpp : ∀ c ∈ p, c ≠ fence_char := (hp (d, p) (List.mem_cons_self _ _)).2
    have hrest : ∀ pr2 ∈ rest, (∀ c ∈ pr2.1, c ≠ fence_char) ∧ (∀ c ∈ pr2.2, c ≠ fence_char) :=
      fun pr2 h2 => hp pr2 (List.mem_cons_of_mem _ h2)
    rw [build_fenced]
    simp only [List.append_assoc]
    rw [count_fences_append first hf, count_fences_fence,
      count_fences_append d hd, count_fences_fence, ih p hpp hrest]
    simp only [List.length_cons]
    omega

/-- Keeping the even chunks of an assembled text concatenates exactly the
retained spans, in order. -/
theorem join_even_chunks_build (pairs : List (List Char × List Char)) :
    ∀ first : List Char,
      join_even_chunks (first :: all_chunks pairs) = retained_concat first pairs := by
  induction pairs with
  | nil => intro first; rfl
  | cons pr rest ih =>
    intro first
    obtain ⟨d, p⟩ := pr
    show join_even_chunks (first :: d :: p :: all_chunks rest) = retained_concat first ((d, p) :: rest)
    rw [join_even_chunks, retained_concat, ih p]

/-- Code-fence removal of an assembled text keeps exactly the retained
spans, concatenated in their original order. -/
theorem spec_remove_code_blocks_build (pairs : List (List Char × List Char))
    (first : List Char) (hf : ∀ c ∈ first, c ≠ fence_char)
    (hp : ∀ pr ∈ pairs, (∀ c ∈ pr.1, c ≠ fence_char) ∧ (∀ c ∈ pr.2, c ≠ fence_char)) :
    spec_remove_code_blocks (build_fenced first pairs) = .ok (retained_concat first pairs) := by
  unfold spec_remove_code_blocks
  rw [count_fences_build pairs first hf hp, split_on_fence_build pairs first hf hp,
    join_even_chunks_build pairs first]
  simp [Nat.mul_mod_right]

/-- The retained concatenation depends only on the retained spans. -/
theorem retained_concat_eq (pairs1 : List (List Char × List Char)) :
    ∀ (pairs2 : List (List Char × List Char)) (first : List Char),
      pairs1.map Prod.snd = pairs2.map Prod.snd →
      retained_concat first pairs1 = retained_concat first pairs2 := by
  induction pairs1 with
  | nil =>
    intro pairs2 first h
    cases pairs2 with
    | nil => rfl
    | cons pr2 rest2 => simp at h
  | cons pr rest ih =>
    intro pairs2 first h
    cases pairs2 with
    | nil => simp at h
    | cons pr2 rest2 =>
      obtain ⟨d, p⟩ := pr
      obtain ⟨d2, p2⟩ := pr2
      simp only [List.map_cons, List.cons.injEq] at h
      simp only [retained_concat]
      rw [h.1, ih rest2 p2 h.2]

/-- C7: two quiz-section texts assembled from the same retained spans and
possibly different fenced spans validate identically — fence removal drops
every fenced span (whatever characters it holds) and concatenates the
retained spans in their original order, so every downstream stage (the
sanitizer, the heading segmenter, the answer classifier and the rule
engine) sees the same text and the pass/fail outcome and diagnostic
coincide. -/
theorem fenced_content_opaque (first : List Char)
    (pairs1 pairs2 : List (List Char × List Char))
    (hf : ∀ c ∈ first, c ≠ fence_char)
    (h1 : ∀ pr ∈ pairs1, (∀ c ∈ pr.1, c ≠ fence_char) ∧ (∀ c ∈ pr.2, c ≠ fence_char))
    (h2 : ∀ pr ∈ pairs2, (∀ c ∈ pr.1, c ≠ fence_char) ∧ (∀ c ∈ pr.2, c ≠ fence_char))
    (hsame : pairs1.map Prod.snd = pairs2.map Prod.snd) :
    spec_remove_code_blocks (build_fenced first pairs1) = .ok (retained_concat first pairs1) ∧
    spec_validate_quiz_section (build_fenced first pairs1) =
      spec_validate_quiz_section (build_fenced first pairs2) := by
  have e1 := spec_remove_code_blocks_build pairs1 first hf h1
  have e2 := spec_remove_code_blocks_build pairs2 first hf h2
  refine ⟨e1, ?_⟩
  unfold spec_validate_quiz_section
  rw [e1, e2, retained_concat_eq pairs1 pairs2 first hsame]

/-- Witness for C7: the fenced span holds `#`-shaped and `- [x]`-shaped
text in one document and unrelated text in the other; the two documents
validate identically. -/
theorem fenced_content_opaque_witness :
    spec_remove_code_blocks
        (build_fenced ("\n# Q1\n".data)
          [(("# fake\n- [x] trick").data, "- [ ] no\n- [x] yes\n".data)]) =
      .ok (retained_concat ("\n# Q1\n".data)
        [(("# fake\n- [x] trick").data, "- [ ] no\n- [x] yes\n".data)]) ∧
    spec_validate_quiz_section
        (build_fenced ("\n# Q1\n".data)
          [(("# fake\n- [x] trick").data, "- [ ] no\n- [x] yes\n".data)]) =
      spec_validate_quiz_section
        (build_fenced ("\n# Q1\n".data)
          [(("other").data, "- [ ] no\n- [x] yes\n".data)]) :=
  fenced_content_opaque ("\n# Q1\n".data)
    [(("# fake\n- [x] trick").data, "- [ ] no\n- [x] yes\n".data)]
    [(("other").data, "- [ ] no\n- [x] yes\n".data)]
    (by decide) (by decide) (by decide) (by decide)

end QuizCheck
